import Mathlib

/-!
Shallow embedding of the core document-alignment pipeline of the
Grant-Template repository:

* `src/backend/services/crosswalk_engine.py`  (CrosswalkEngine)
* `src/backend/services/gap_analyzer.py`      (GapAnalyzerService)
* `src/backend/services/plan_generator.py`    (PlanGeneratorService)

Python text is modelled as Lean `String` / `List Char`; Python `float`
arithmetic on the small literal coefficients involved is modelled exactly
over `ℚ`; Python `int(x)` on a non-negative value is the floor; Python
truthiness of `Optional` numeric fields (`x or d`) is modelled explicitly
(`none` and `0` both fall back to the default, as in the source).
-/

namespace Grant

/-- Case-insensitive substring test: Python `needle in haystack` after both
sides were lowercased by the caller.  (Empty needle matches, as in Python.) -/
def containsSub (needle haystack : List Char) : Bool :=
  haystack.tails.any (fun t => needle.isPrefixOf t)

/-- Lowercase a string into its character list (Python `str.lower()`). -/
def lowerChars (s : String) : List Char :=
  s.data.map Char.toLower

/-- Python `list.insert(i, a)`: inserts at position `i`, appending when `i`
is past the end. -/
def pyInsert (i : Nat) (a : α) (l : List α) : List α :=
  l.take i ++ a :: l.drop i

/-! ## Crosswalk engine (`crosswalk_engine.py`) -/

/-- `AlignmentLevel` enumeration. -/
inductive AlignmentLevel where
  | strong
  | partialLevel
  | weak
  | none
deriving DecidableEq, Repr

/-- `AlignmentLevel.value` strings. -/
def AlignmentLevel.value : AlignmentLevel → String
  | .strong => "strong"
  | .partialLevel => "partial"
  | .weak => "weak"
  | .none => "none"

/-- `RiskLevel` enumeration. -/
inductive RiskLevel where
  | green
  | yellow
  | red
deriving DecidableEq, Repr

/-- `RiskLevel.value` strings. -/
def RiskLevel.value : RiskLevel → String
  | .green => "green"
  | .yellow => "yellow"
  | .red => "red"

/-- `FOAM_KEYWORD_MAP`: the fixed per-area keyword lists, in the source's
insertion order (Python dicts preserve it). -/
def FOAM_KEYWORD_MAP : List (String × List String) :=
  [ ("reentry",
      ["Louisiana Barracks", "justice-involved", "recidivism", "DPS&C", "incarcerated",
       "reentry", "criminal justice", "formerly incarcerated", "post-incarceration"]),
    ("fatherhood",
      ["Responsible Fatherhood Classes", "NPCL", "co-parenting", "father engagement",
       "paternity", "father presence", "fatherhood education", "parenting skills"]),
    ("workforce",
      ["job readiness", "resume", "NCCER", "OSHA", "employment", "economic mobility",
       "career pathway", "job training", "vocational", "employment services"]),
    ("case_management",
      ["Project Family Build", "Plans of Care", "wraparound", "barrier removal",
       "case management", "individualized", "service coordination", "continuity of care"]),
    ("prevention",
      ["protective factors", "child welfare", "abuse prevention", "neglect",
       "prevention services", "family preservation", "family support"]),
    ("evaluation",
      ["EmpowerDB", "nFORM", "pre/post assessment", "outcomes", "outcome measurement",
       "data collection", "metrics", "evaluation tool"]),
    ("financial_literacy",
      ["budgeting", "banking", "credit", "financial empowerment", "financial management",
       "money management", "financial planning", "financial stability"]),
    ("celebration_events",
      ["Celebration of Fatherhood", "events", "bonding", "engagement", "community",
       "celebration", "quarterly", "fatherhood event"]) ]

/-- An `RFPSection` (from `rfp_parser.py`), restricted to the fields the
crosswalk / plan stages read. -/
structure RFPSection where
  name : String
  content : String
  word_limit : Option Int := Option.none
  scoring_weight : Option ℚ := Option.none
deriving Repr, DecidableEq

/-- A `CrosswalkResult`.  The free-text `recommended_actions` strings are
presentation only and unreferenced by any downstream computation modelled
here, so the field is not carried. -/
structure CrosswalkResult where
  rfp_requirement : String
  rfp_section : String
  foam_strength : String
  boilerplate_section : String
  boilerplate_excerpt : String
  alignment_score : ℚ
  alignment_level : AlignmentLevel
  gap_flag : Bool
  risk_level : RiskLevel
  customization_needed : String
  confidence : ℚ
deriving Repr, DecidableEq

/-- A caller-supplied boilerplate section (`boilerplate_sections` items in
`_match_section`): a dict read through `.get("area")`, `["content"]`,
`.get("tags", [])`, `.get("name", "")`. -/
structure BoilerplateSection where
  area : Option String := Option.none
  name : String := ""
  content : String
  tags : List String := []
deriving Repr, DecidableEq

/-- A value of `self.boilerplate_data`: either a bare string or a dict of
named sub-sections (`_get_boilerplate_for_area` handles both shapes). -/
inductive BoilerplateValue where
  | str (content : String)
  | dict (sections : List (String × String))
deriving Repr, DecidableEq

/-- `self.boilerplate_data`: an insertion-ordered mapping area ↦ value. -/
abbrev BoilerplateData := List (String × BoilerplateValue)

/-- `_identify_matching_areas`: per-area matched-keyword fraction, keeping
only areas with at least one keyword hit, in map order. -/
def identifyMatchingAreas (content : String) : List (String × ℚ) :=
  let contentLower := lowerChars content
  FOAM_KEYWORD_MAP.filterMap (fun akw =>
    let matchCount := (akw.2.filter (fun kw => containsSub (lowerChars kw) contentLower)).length
    if matchCount > 0 then
      some (akw.1, min ((matchCount : ℚ) / (akw.2.length : ℚ)) 1)
    else
      Option.none)

/-- `_get_boilerplate_for_area`: first caller-supplied section whose `area`
equals the FOAM area or whose tags contain it; otherwise the entry of
`boilerplate_data` for that area (a bare string becomes a single-tag entry,
a dict contributes its first sub-section). -/
def getBoilerplateForArea (boilerplateData : BoilerplateData)
    (foamArea : String) (boilerplateSections : Option (List BoilerplateSection)) :
    Option BoilerplateSection :=
  let fromCaller :=
    match boilerplateSections with
    | some sections =>
        sections.find? (fun (s : BoilerplateSection) =>
          s.area == some foamArea || s.tags.contains foamArea)
    | Option.none => Option.none
  match fromCaller with
  | some s => some s
  | Option.none =>
      match boilerplateData.find? (fun (p : String × BoilerplateValue) => p.1 == foamArea) with
      | some (_, BoilerplateValue.str c) =>
          some { area := Option.none, name := foamArea, content := c, tags := [foamArea] }
      | some (_, BoilerplateValue.dict secs) =>
          match secs.head? with
          | some (_, c) =>
              some { area := Option.none, name := foamArea, content := c, tags := [foamArea] }
          | Option.none => Option.none
      | Option.none => Option.none

/-- `_simple_similarity`: Jaccard overlap of lowercased whitespace tokens. -/
def simpleSimilarity (text1 text2 : String) : ℚ :=
  let tokens1 := ((lowerChars text1).splitOnP Char.isWhitespace).filter (· ≠ []) |>.dedup
  let tokens2 := ((lowerChars text2).splitOnP Char.isWhitespace).filter (· ≠ []) |>.dedup
  if tokens1 = [] ∨ tokens2 = [] then 0
  else
    let inter := tokens1.filter (fun t => tokens2.contains t)
    let union := (tokens1 ++ tokens2).dedup
    (inter.length : ℚ) / (union.length : ℚ)

/-- `_match_tags`: fraction of the entry's tags found (lowercased,
substring) in the requirement text. -/
def matchTags (rfpText : String) (boilerplateTags : List String) : ℚ :=
  if boilerplateTags = [] then 0
  else
    let rfpLower := lowerChars rfpText
    let matched := (boilerplateTags.filter (fun t => containsSub (lowerChars t) rfpLower)).length
    (matched : ℚ) / (boilerplateTags.length : ℚ)

/-- `_score_alignment`: weighted combination and threshold bucketing. -/
def scoreAlignment (similarity tagMatch : ℚ) : ℚ × AlignmentLevel :=
  let alignmentScore := similarity * (6/10) + tagMatch * (4/10)
  let level :=
    if alignmentScore > 7/10 then AlignmentLevel.strong
    else if alignmentScore > 4/10 then AlignmentLevel.partialLevel
    else if alignmentScore > 2/10 then AlignmentLevel.weak
    else AlignmentLevel.none
  (alignmentScore, level)

/-- `_assess_risk`: risk from alignment level and section importance. -/
def assessRisk (alignmentLevel : AlignmentLevel) (sectionImportance : ℚ) : RiskLevel :=
  match alignmentLevel with
  | .strong => RiskLevel.green
  | .partialLevel => if sectionImportance > 1/2 then RiskLevel.yellow else RiskLevel.green
  | .weak => if sectionImportance ≤ 1/2 then RiskLevel.yellow else RiskLevel.red
  | .none => if sectionImportance > 1/2 then RiskLevel.red else RiskLevel.yellow

/-- `_identify_customization`: fixed per-level description. -/
def identifyCustomization (alignment : AlignmentLevel) : String :=
  match alignment with
  | .strong => "Minor adjustments for RFP-specific terminology and metrics"
  | .partialLevel => "Significant adaptation needed; supplement with additional program details"
  | .weak => "Major rewrite required; limited boilerplate relevance"
  | .none => "No boilerplate match; content must be developed from scratch"

/-- Python `x or default` on an optional numeric: `None` and `0` both yield
the default (`rfp_section.scoring_weight or 0.5`). -/
def orDefaultQ (x : Option ℚ) (d : ℚ) : ℚ :=
  match x with
  | some v => if v = 0 then d else v
  | Option.none => d

/-- `_match_section`: one `CrosswalkResult` per matching FOAM area that has
boilerplate content available.  `simFn` stands for `_compute_similarity`
(its TF-IDF branch lives in the external scikit-learn dependency; its
in-repo fallback is `simpleSimilarity`); `useMl` is `self.use_ml`. -/
def matchSection (boilerplateData : BoilerplateData) (useMl : Bool)
    (simFn : String → String → ℚ) (rfpSection : RFPSection)
    (boilerplateSections : Option (List BoilerplateSection)) : List CrosswalkResult :=
  let matchingAreas := identifyMatchingAreas rfpSection.content
  matchingAreas.filterMap (fun area =>
    match getBoilerplateForArea boilerplateData area.1 boilerplateSections with
    | some boilerplate =>
        let similarity := simFn rfpSection.content boilerplate.content
        let tagMatch := matchTags rfpSection.content boilerplate.tags
        let st := scoreAlignment similarity tagMatch
        let gapFlag := st.2 == AlignmentLevel.none
        let riskLevel := assessRisk st.2 (orDefaultQ rfpSection.scoring_weight (1/2))
        some { rfp_requirement := (rfpSection.content.data.take 200).asString
               rfp_section := rfpSection.name
               foam_strength := area.1
               boilerplate_section := boilerplate.name
               boilerplate_excerpt := (boilerplate.content.data.take 300).asString
               alignment_score := st.1
               alignment_level := st.2
               gap_flag := gapFlag
               risk_level := riskLevel
               customization_needed := identifyCustomization st.2
               confidence := if useMl then similarity else tagMatch }
    | Option.none => Option.none)

/-! ## Gap analyzer (`gap_analyzer.py`) -/

/-- `GapSeverity` enumeration. -/
inductive GapSeverity where
  | green
  | yellow
  | red
deriving DecidableEq, Repr

/-- `GapSeverity.value` strings (used as the secondary sort key in
`_generate_top_recommendations`). -/
def GapSeverity.value : GapSeverity → String
  | .green => "green"
  | .yellow => "yellow"
  | .red => "red"

/-- A `GapFinding` (the `evidence` field is never written by the service). -/
structure GapFinding where
  category : String
  description : String
  severity : GapSeverity
  recommendation : String
  priority : Int
  affected_section : Option String := Option.none
deriving Repr, DecidableEq

/-- An item of the `"alignment"` gap list built by `_categorize_gaps`
(dict keys `section` / `requirement` / `gap`). -/
structure AlignmentGapItem where
  sectionName : String
  requirement : String
  gap : String
deriving Repr, DecidableEq

/-- An item of the `"match"` gap list built by `_categorize_gaps`
(dict keys `section` / `foam_area` / `gap`). -/
structure MatchGapItem where
  sectionName : String
  foamArea : String
  gap : String
deriving Repr, DecidableEq

/-- `_categorize_gaps`: one pass over the results, collecting every result
with `gap_flag` into the alignment list and every result with level value
`"none"` into the match list, in input order. -/
def categorizeGaps (crosswalkResults : List CrosswalkResult) :
    List AlignmentGapItem × List MatchGapItem :=
  ( crosswalkResults.filterMap (fun r =>
      if r.gap_flag then
        some { sectionName := r.rfp_section
               requirement := r.rfp_requirement
               gap := "No alignment found for " ++ r.rfp_section }
      else Option.none),
    crosswalkResults.filterMap (fun r =>
      if r.alignment_level.value == "none" then
        some { sectionName := r.rfp_section
               foamArea := r.foam_strength
               gap := "No FOAM capability match for " ++ r.rfp_section }
      else Option.none) )

/-- `_build_findings`: alignment gaps first (red), then match gaps (yellow),
then up to 3 findings each for metrics / partnerships / evaluation / weak
alignments, then outdated-data findings, with one running priority counter
starting at 1. -/
def buildFindings (gapAlignment : List AlignmentGapItem) (gapMatch : List MatchGapItem)
    (missingMetrics missingPartnerships evaluationWeaknesses weakAlignments
      outdatedData : List String) : List GapFinding :=
  let p0 : Int := 1
  let b1 := gapAlignment.enum.map (fun e =>
    { category := "alignment", description := e.2.gap, severity := GapSeverity.red,
      recommendation := "Develop custom content for this section or reconsider FOAM program fit",
      priority := p0 + e.1, affected_section := some e.2.sectionName : GapFinding })
  let p1 := p0 + gapAlignment.length
  let b2 := gapMatch.enum.map (fun e =>
    { category := "match", description := e.2.gap, severity := GapSeverity.yellow,
      recommendation := "Explore connections to " ++ e.2.foamArea ++
        " or identify new capability areas",
      priority := p1 + e.1, affected_section := some e.2.sectionName : GapFinding })
  let p2 := p1 + gapMatch.length
  let b3 := (missingMetrics.take 3).enum.map (fun e =>
    { category := "metrics",
      description := "Missing metric or measurement approach: " ++ e.2,
      severity := GapSeverity.yellow,
      recommendation := "Develop measurement plan for this metric; coordinate with evaluation",
      priority := p2 + e.1 : GapFinding })
  let p3 := p2 + (missingMetrics.take 3).length
  let b4 := (missingPartnerships.take 3).enum.map (fun e =>
    { category := "partnerships", description := "Partnership gap: " ++ e.2,
      severity := GapSeverity.yellow,
      recommendation := "Establish partnerships or MOU before application submission",
      priority := p3 + e.1 : GapFinding })
  let p4 := p3 + (missingPartnerships.take 3).length
  let b5 := (evaluationWeaknesses.take 3).enum.map (fun e =>
    { category := "evaluation",
      description := "Evaluation framework weakness: " ++ e.2,
      severity := GapSeverity.yellow,
      recommendation := "Develop robust evaluation plan addressing all required components",
      priority := p4 + e.1, affected_section := some "Evaluation Plan" : GapFinding })
  let p5 := p4 + (evaluationWeaknesses.take 3).length
  let b6 := (weakAlignments.take 3).enum.map (fun e =>
    { category := "alignment", description := "Weak alignment: " ++ e.2,
      severity := GapSeverity.yellow,
      recommendation := "Strengthen alignment through targeted customization",
      priority := p5 + e.1 : GapFinding })
  let p6 := p5 + (weakAlignments.take 3).length
  let b7 := outdatedData.enum.map (fun e =>
    { category := "data", description := "Data quality issue: " ++ e.2,
      severity := GapSeverity.yellow,
      recommendation := "Update data with current sources and timeframes",
      priority := p6 + e.1 : GapFinding })
  b1 ++ b2 ++ b3 ++ b4 ++ b5 ++ b6 ++ b7

/-- `sum(1 for f in findings if f.severity == sev)`. -/
def severityCount (findings : List GapFinding) (sev : GapSeverity) : ℕ :=
  (findings.filter (fun f => f.severity == sev)).length

/-- `_calculate_overall_risk`: risk bucket from severity counts and
a 100-point score with per-severity deductions, clamped to `[0, 100]`. -/
def calculateOverallRisk (findings : List GapFinding) : String × ℚ :=
  if findings = [] then ("green", 100)
  else
    let redCount := severityCount findings GapSeverity.red
    let yellowCount := severityCount findings GapSeverity.yellow
    let greenCount := severityCount findings GapSeverity.green
    let overallRisk :=
      if redCount ≥ 3 then "red"
      else if redCount ≥ 1 ∨ yellowCount ≥ 5 then "yellow"
      else "green"
    let score : ℚ := 100 - redCount * 15 - yellowCount * 5 - greenCount * 1
    (overallRisk, max 0 (min 100 score))

/-- Sort key of `_generate_top_recommendations`: Python tuple comparison on
`(f.priority, f.severity.value)`. -/
def findingLE (f g : GapFinding) : Prop :=
  f.priority < g.priority ∨ (f.priority = g.priority ∧ f.severity.value ≤ g.severity.value)

instance : DecidableRel findingLE := fun f g => by
  unfold findingLE; infer_instance

/-- `_generate_top_recommendations`: stable sort by `(priority,
severity.value)` (Python `sorted` is stable; a stable sort is extensionally
unique, and insertion sort by a total preorder is stable), dedup of the
first five recommendations, optional `CRITICAL` / `HIGH PRIORITY` inserts,
capped at 8. -/
def generateTopRecommendations (findings : List GapFinding) : List String :=
  let sortedFindings := List.insertionSort findingLE findings
  let recommendations := (sortedFindings.take 5).foldl
    (fun acc f => if acc.contains f.recommendation then acc else acc ++ [f.recommendation]) []
  let recommendations :=
    if (findings.filter (fun f => f.severity == GapSeverity.red)) ≠ [] then
      pyInsert 0 "CRITICAL: Address red-level gaps before submission" recommendations
    else recommendations
  let recommendations :=
    if (findings.filter (fun f => f.severity == GapSeverity.yellow)).length > 3 then
      pyInsert 1 "HIGH PRIORITY: Significant strengthening needed in multiple areas"
        recommendations
    else recommendations
  recommendations.take 8

/-! ## Plan generator (`plan_generator.py`) -/

/-- Python `int(q)` for a rational: truncation toward zero. -/
def pyInt (q : ℚ) : Int :=
  if q < 0 then -(⌊-q⌋) else ⌊q⌋

/-- Python `x or default` on an optional integer: `None` and `0` both yield
the default (`section.word_limit or 500`). -/
def orDefaultInt (x : Option Int) (d : Int) : Int :=
  match x with
  | some v => if v = 0 then d else v
  | Option.none => d

/-- `STANDARD_SECTIONS`: (key, display title, default weight) triples. -/
def STANDARD_SECTIONS : List (String × String × ℚ) :=
  [ ("need_statement", "Need Statement / Problem Description", 15/100),
    ("organizational_capacity", "Organizational Capacity", 15/100),
    ("project_design", "Project Design / Program Description", 25/100),
    ("evaluation_plan", "Evaluation Plan", 15/100),
    ("budget", "Budget Narrative", 15/100),
    ("sustainability", "Sustainability Plan", 10/100),
    ("timeline", "Timeline / Work Plan", 5/100) ]

/-- A `PlanSection`, restricted to the fields `_create_sections` and
`_allocate_word_counts` write (the suggestion / compliance lists are filled
by later presentation steps not referenced by any property here). -/
structure PlanSection where
  title : String
  order : Int
  word_count_target : Int
  scoring_weight : Option ℚ
  risk_level : String
  alignment_status : String
  estimated_hours : Int
deriving Repr, DecidableEq

/-- `_estimate_hours`: `int(word_count / 200 * 1.5) or 1`. -/
def estimateHours (wordCount : Int) : Int :=
  let baseHours : ℚ := (wordCount : ℚ) / 200
  let h := pyInt (baseHours * (3/2))
  if h = 0 then 1 else h

/-- `_create_sections`: one plan section per parsed RFP section; the title
and weight come from the first `STANDARD_SECTIONS` triple whose key
contains — or is contained in — the lowercased section name, defaulting to
the raw name with weight 0.1; alignment/risk come from the first crosswalk
result with the same (lowercased) section name; the initial word target is
`word_limit or 500`. -/
def createSections (rfpSections : List RFPSection)
    (crosswalkResults : List CrosswalkResult) : List PlanSection :=
  rfpSections.enum.map (fun e =>
    let sec := e.2
    let sectionName := lowerChars sec.name
    let matchedStandard := STANDARD_SECTIONS.find? (fun std =>
      containsSub std.1.data sectionName || containsSub sectionName std.1.data)
    let title := match matchedStandard with
      | some std => std.2.1
      | Option.none => sec.name
    let weight : ℚ := match matchedStandard with
      | some std => std.2.2
      | Option.none => 1/10
    let relatedResults := crosswalkResults.filter
      (fun r => lowerChars r.rfp_section == sectionName)
    let alignment := match relatedResults.head? with
      | some r => r.alignment_level.value
      | Option.none => "unknown"
    let risk := match relatedResults.head? with
      | some r => r.risk_level.value
      | Option.none => "yellow"
    let wordLimit := orDefaultInt sec.word_limit 500
    { title := title
      order := (e.1 : Int) + 1
      word_count_target := wordLimit
      scoring_weight := some weight
      risk_level := risk
      alignment_status := alignment
      estimated_hours := estimateHours wordLimit : PlanSection })

/-- Python `x or default` on an optional rational
(`section.scoring_weight` truthiness in `_allocate_word_counts`). -/
def isTruthyQ (x : Option ℚ) : Bool :=
  match x with
  | some v => v ≠ 0
  | Option.none => false

/-- `_allocate_word_counts`: re-targets every plan section; the stated RFP
word limit wins only when some RFP section name (lowercased) is a substring
of the plan title (lowercased) and its limit is truthy, otherwise the
target is allocated by scoring weight against the summed limits (or split
evenly when weight is falsy).  The final `int(target * 1.0)` of the source
is the identity on integers. -/
def allocateWordCounts (sections : List PlanSection)
    (rfpSections : List RFPSection) : List PlanSection :=
  let totalWords : Int := (rfpSections.map (fun s => orDefaultInt s.word_limit 500)).sum
  sections.map (fun sec =>
    let rfpSection := rfpSections.find? (fun s =>
      containsSub (lowerChars s.name) (lowerChars sec.title))
    let target : Int :=
      match rfpSection with
      | some s =>
          if orDefaultInt s.word_limit 0 ≠ 0 then
            orDefaultInt s.word_limit 0
          else if isTruthyQ sec.scoring_weight then
            pyInt ((totalWords : ℚ) * sec.scoring_weight.getD 0)
          else
            pyInt ((totalWords : ℚ) / (sections.length : ℚ))
      | Option.none =>
          if isTruthyQ sec.scoring_weight then
            pyInt ((totalWords : ℚ) * sec.scoring_weight.getD 0)
          else
            pyInt ((totalWords : ℚ) / (sections.length : ℚ))
    { sec with word_count_target := target })

/-! ## Concrete inputs used by the witnesses and counterexamples -/

/-- A small caller-supplied corpus covering two FOAM areas. -/
def bsExample : List BoilerplateSection :=
  [ { area := some "reentry", name := "R",
      content := "our reentry program serves people", tags := ["reentry"] },
    { area := some "financial_literacy", name := "F",
      content := "budgeting classes", tags := ["financial_literacy"] } ]

/-- A requirement section whose content matches exactly two FOAM keyword
areas (`reentry` via "reentry", `financial_literacy` via "budgeting"). -/
def secTwoAreas : RFPSection :=
  { name := "s1", content := "reentry budgeting" }

/-- A requirement section whose content matches zero FOAM keyword areas. -/
def secNoAreas : RFPSection :=
  { name := "s2", content := "hello world" }

/-- One parsed `evaluation_plan` requirement with an explicit word limit of
250 and scoring weight 0.9. -/
def rfpSectionsC3 : List RFPSection :=
  [ { name := "evaluation_plan", content := "x",
      word_limit := some 250, scoring_weight := some (9/10) } ]

/-- Five red and two yellow findings (spec Scenario D). -/
def findingsFiveRedTwoYellow : List GapFinding :=
  [ { category := "alignment", description := "d1", severity := GapSeverity.red,
      recommendation := "r1", priority := 1 },
    { category := "alignment", description := "d2", severity := GapSeverity.red,
      recommendation := "r2", priority := 2 },
    { category := "alignment", description := "d3", severity := GapSeverity.red,
      recommendation := "r3", priority := 3 },
    { category := "alignment", description := "d4", severity := GapSeverity.red,
      recommendation := "r4", priority := 4 },
    { category := "alignment", description := "d5", severity := GapSeverity.red,
      recommendation := "r5", priority := 5 },
    { category := "match", description := "d6", severity := GapSeverity.yellow,
      recommendation := "r6", priority := 6 },
    { category := "match", description := "d7", severity := GapSeverity.yellow,
      recommendation := "r7", priority := 7 } ]

/-- One red and four yellow findings with five distinct recommendations. -/
def findingsOneRedFourYellow : List GapFinding :=
  [ { category := "alignment", description := "d1", severity := GapSeverity.red,
      recommendation := "r1", priority := 1 },
    { category := "match", description := "d2", severity := GapSeverity.yellow,
      recommendation := "r2", priority := 2 },
    { category := "match", description := "d3", severity := GapSeverity.yellow,
      recommendation := "r3", priority := 3 },
    { category := "metrics", description := "d4", severity := GapSeverity.yellow,
      recommendation := "r4", priority := 4 },
    { category := "partnerships", description := "d5", severity := GapSeverity.yellow,
      recommendation := "r5", priority := 5 } ]

/-- Two crosswalk results satisfying the gap-flag/level invariant: one
no-match result and one strong result. -/
def resultsC10 : List CrosswalkResult :=
  [ { rfp_requirement := "req1", rfp_section := "s1", foam_strength := "reentry",
      boilerplate_section := "R", boilerplate_excerpt := "", alignment_score := 0,
      alignment_level := AlignmentLevel.none, gap_flag := true,
      risk_level := RiskLevel.red, customization_needed := "", confidence := 0 },
    { rfp_requirement := "req2", rfp_section := "s2", foam_strength := "fatherhood",
      boilerplate_section := "F", boilerplate_excerpt := "", alignment_score := 8/10,
      alignment_level := AlignmentLevel.strong, gap_flag := false,
      risk_level := RiskLevel.green, customization_needed := "", confidence := 8/10 } ]

/-! ## Theorems -/

/-- Helper: the length of a `filterMap` equals the length of the filter by
definedness of the mapped function. -/
theorem length_filterMap_eq_length_filter {α β : Type} (f : α → Option β) (g : α → Bool)
    (h : ∀ a, (f a).isSome = g a) :
    ∀ l : List α, (l.filterMap f).length = (l.filter g).length := by
  intro l
  induction l with
  | nil => rfl
  | cons x xs ih =>
      rw [List.filterMap_cons, List.filter_cons]
      cases hfx : f x with
      | none =>
          have hg : g x = false := by rw [← h x, hfx]; rfl
          rw [hg]; simpa using ih
      | some b =>
          have hg : g x = true := by rw [← h x, hfx]; rfl
          rw [hg]; simp [ih]

/-- C1: the crosswalk engine emits one `CrosswalkResult` per matching FOAM
keyword area that has boilerplate content available — there is no
best-match selection, so a requirement matching several areas yields
several results. -/
theorem C1_one_result_per_matching_area (bd : BoilerplateData) (useMl : Bool)
    (simFn : String → String → ℚ) (sec : RFPSection)
    (bs : Option (List BoilerplateSection)) :
    (matchSection bd useMl simFn sec bs).length =
      ((identifyMatchingAreas sec.content).filter
        (fun a => (getBoilerplateForArea bd a.1 bs).isSome)).length := by
  unfold matchSection
  apply length_filterMap_eq_length_filter
  intro a
  cases h : getBoilerplateForArea bd a.1 bs <;> simp [h]

/-- C1 counterexample: a single requirement matching two corpus areas
produces two alignment results, not one. -/
theorem C1_counterexample :
    (matchSection [] false simpleSimilarity secTwoAreas (some bsExample)).length = 2 := by
  decide

/-- C2: a requirement whose content matches zero FOAM keyword areas yields
an empty result list — no degenerate gap result is emitted. -/
theorem C2_no_match_yields_empty (bd : BoilerplateData) (useMl : Bool)
    (simFn : String → String → ℚ) (sec : RFPSection)
    (bs : Option (List BoilerplateSection))
    (h : identifyMatchingAreas sec.content = []) :
    matchSection bd useMl simFn sec bs = [] := by
  simp [matchSection, h]

/-- C2 witness. -/
theorem C2_witness :
    identifyMatchingAreas secNoAreas.content = [] ∧
      matchSection [] false simpleSimilarity secNoAreas Option.none = [] :=
  ⟨by decide, C2_no_match_yields_empty [] false simpleSimilarity secNoAreas Option.none
    (by decide)⟩

/-- C2 counterexample: a no-match requirement produces zero results, not
exactly one `gap_flag` result. -/
theorem C2_counterexample :
    matchSection [] false simpleSimilarity secNoAreas Option.none = [] := by
  decide

/-- C4: with zero parsed requirement sections the plan builder service
produces an empty section list (the 8-entry generic fallback lives in the
HTTP route handler, outside this service). -/
theorem C4_no_sections_empty_plan (crosswalkResults : List CrosswalkResult) :
    createSections [] crosswalkResults = [] := rfl

/-- C4 counterexample: zero parsed sections yield zero plan sections, not
an 8-entry template. -/
theorem C4_counterexample :
    createSections [] [] = [] ∧ (createSections [] []).length ≠ 8 := by
  exact ⟨rfl, by decide⟩

/-- C6: the risk table of `_assess_risk`: strong is green unconditionally;
partial is yellow above importance 0.5, else green; weak and none are red
above importance 0.5, else yellow. -/
theorem C6_assess_risk_table (i : ℚ) (h0 : 0 ≤ i) (h1 : i ≤ 1) :
    assessRisk AlignmentLevel.strong i = RiskLevel.green ∧
    assessRisk AlignmentLevel.partialLevel i =
      (if i > 1/2 then RiskLevel.yellow else RiskLevel.green) ∧
    assessRisk AlignmentLevel.weak i =
      (if i > 1/2 then RiskLevel.red else RiskLevel.yellow) ∧
    assessRisk AlignmentLevel.none i =
      (if i > 1/2 then RiskLevel.red else RiskLevel.yellow) := by
  refine ⟨rfl, rfl, ?_, rfl⟩
  show (if i ≤ 1/2 then RiskLevel.yellow else RiskLevel.red) =
    (if i > 1/2 then RiskLevel.red else RiskLevel.yellow)
  rcases le_or_lt i (1/2) with h | h
  · rw [if_pos h, if_neg (not_lt.mpr h)]
  · rw [if_neg (not_le.mpr h), if_pos h]

/-- C6 witness. -/
theorem C6_witness :
    assessRisk AlignmentLevel.weak (1/4) =
      (if (1/4 : ℚ) > 1/2 then RiskLevel.red else RiskLevel.yellow) :=
  (C6_assess_risk_table (1/4) (by norm_num) (by norm_num)).2.2.1

/-- C7: the alignment score is `0.6·similarity + 0.4·tag_match`; the level
thresholds are exact (`>0.7` strong, `>0.4` partial, `>0.2` weak, else
none); the score is monotone in similarity for fixed tag match; and
similarity 0.7 with tag match 0 scores 0.42, level partial. -/
theorem C7_score_alignment (s t : ℚ) (hs0 : 0 ≤ s) (hs1 : s ≤ 1)
    (ht0 : 0 ≤ t) (ht1 : t ≤ 1) :
    (scoreAlignment s t).1 = (6/10) * s + (4/10) * t ∧
    ((scoreAlignment s t).2 = AlignmentLevel.strong ↔ 7/10 < (scoreAlignment s t).1) ∧
    ((scoreAlignment s t).2 = AlignmentLevel.partialLevel ↔
      (4/10 < (scoreAlignment s t).1 ∧ (scoreAlignment s t).1 ≤ 7/10)) ∧
    ((scoreAlignment s t).2 = AlignmentLevel.weak ↔
      (2/10 < (scoreAlignment s t).1 ∧ (scoreAlignment s t).1 ≤ 4/10)) ∧
    ((scoreAlignment s t).2 = AlignmentLevel.none ↔ (scoreAlignment s t).1 ≤ 2/10) ∧
    (∀ s2 : ℚ, s ≤ s2 → (scoreAlignment s t).1 ≤ (scoreAlignment s2 t).1) ∧
    (scoreAlignment (7/10) 0).1 = 42/100 ∧
    (scoreAlignment (7/10) 0).2 = AlignmentLevel.partialLevel := by
  have hsc : ∀ u v : ℚ, (scoreAlignment u v).1 = u * (6/10) + v * (4/10) :=
    fun _ _ => rfl
  have hlv : ∀ u v : ℚ, (scoreAlignment u v).2 =
      (if u * (6/10) + v * (4/10) > 7/10 then AlignmentLevel.strong
       else if u * (6/10) + v * (4/10) > 4/10 then AlignmentLevel.partialLevel
       else if u * (6/10) + v * (4/10) > 2/10 then AlignmentLevel.weak
       else AlignmentLevel.none) := fun _ _ => rfl
  refine ⟨by rw [hsc]; ring, ?_, ?_, ?_, ?_, ?_, ?_, ?_⟩
  · rw [hlv, hsc]
    split_ifs with hA hB hC
    · exact iff_of_true rfl hA
    · exact iff_of_false (by decide) hA
    · exact iff_of_false (by decide) hA
    · exact iff_of_false (by decide) hA
  · rw [hlv, hsc]
    split_ifs with hA hB hC
    · exact iff_of_false (by decide) (by rintro ⟨h1, h2⟩; linarith)
    · exact iff_of_true rfl ⟨hB, le_of_not_lt hA⟩
    · exact iff_of_false (by decide) (by rintro ⟨h1, h2⟩; exact hB h1)
    · exact iff_of_false (by decide) (by rintro ⟨h1, h2⟩; exact hB h1)
  · rw [hlv, hsc]
    split_ifs with hA hB hC
    · exact iff_of_false (by decide) (by rintro ⟨h1, h2⟩; linarith)
    · exact iff_of_false (by decide) (by rintro ⟨h1, h2⟩; linarith)
    · exact iff_of_true rfl ⟨hC, le_of_not_lt hB⟩
    · exact iff_of_false (by decide) (by rintro ⟨h1, h2⟩; exact hC h1)
  · rw [hlv, hsc]
    split_ifs with hA hB hC
    · exact iff_of_false (by decide) (by intro h; linarith)
    · exact iff_of_false (by decide) (by intro h; linarith)
    · exact iff_of_false (by decide) (by intro h; linarith)
    · exact iff_of_true rfl (le_of_not_lt hC)
  · intro s2 hs2
    rw [hsc, hsc]
    linarith
  · rw [hsc]; norm_num
  · rw [hlv]; norm_num

/-- C7 witness. -/
theorem C7_witness :
    (scoreAlignment (7/10) 0).1 = 42/100 ∧
      (scoreAlignment (7/10) 0).2 = AlignmentLevel.partialLevel :=
  ⟨(C7_score_alignment (7/10) 0 (by norm_num) (by norm_num) (by norm_num)
      (by norm_num)).2.2.2.2.2.2.1,
   (C7_score_alignment (7/10) 0 (by norm_num) (by norm_num) (by norm_num)
      (by norm_num)).2.2.2.2.2.2.2⟩

/-- C9: estimated hours truncate (floor), they do not round to nearest:
`estimated_hours = max 1 ⌊w / 200 · 1.5⌋`. -/
theorem C9_estimate_hours_truncates (w : ℕ) :
    estimateHours (w : ℤ) = max 1 ⌊(w : ℚ) / 200 * (3/2)⌋ := by
  have hx : (0 : ℚ) ≤ ((w : ℤ) : ℚ) / 200 * (3/2) := by positivity
  have hf : (0 : ℤ) ≤ ⌊((w : ℤ) : ℚ) / 200 * (3/2)⌋ := Int.floor_nonneg.mpr hx
  simp only [estimateHours, pyInt, not_lt.mpr hx, if_false, if_neg (not_lt.mpr hx)]
  push_cast at hf ⊢
  rcases eq_or_ne ⌊(w : ℚ) / 200 * (3/2)⌋ 0 with h | h
  · rw [if_pos h, h]
    omega
  · rw [if_neg h]
    omega

/-- C9 counterexample: at 500 words the code yields 3 hours while
`max 1 (round (500 / 200 · 1.5)) = 4`. -/
theorem C9_counterexample :
    estimateHours 500 = 3 ∧ max 1 (round ((500 : ℚ) / 200 * (3/2))) = 4 := by
  constructor
  · simp only [estimateHours, pyInt]
    norm_num
  · norm_num [round_eq]

/-- C3 evidence: for a parsed `evaluation_plan` section with an explicit
250-word limit, the generated plan section's target is 37 (= ⌊250 · 0.15⌋),
not 250: `_create_sections` renames the section to "Evaluation Plan", after
which `_allocate_word_counts` cannot find the RFP section by substring and
falls back to weight allocation, discarding the stated limit. -/
theorem C3_word_limit_overridden :
    (allocateWordCounts (createSections rfpSectionsC3 []) rfpSectionsC3).map
        (fun s => s.word_count_target) = [37] ∧ (37 : ℤ) ≠ 250 := by
  refine ⟨?_, by decide⟩
  have h37 : pyInt ((250 : ℚ) * ((some (15/100 : ℚ)).getD 0)) = 37 := by
    unfold pyInt
    norm_num
  have hT : isTruthyQ (some (15/100 : ℚ)) = true := by
    simp [isTruthyQ]
  have hcs : createSections rfpSectionsC3 [] =
      [{ title := "Evaluation Plan", order := 1, word_count_target := 250,
         scoring_weight := some (15/100), risk_level := "yellow",
         alignment_status := "unknown",
         estimated_hours := estimateHours 250 }] := rfl
  rw [hcs]
  show [if isTruthyQ (some (15/100 : ℚ)) = true
        then pyInt ((250 : ℚ) * ((some (15/100 : ℚ)).getD 0))
        else pyInt ((250 : ℚ) / ((1 : ℕ) : ℚ))] = [37]
  rw [hT, if_pos rfl, h37]

/-- Helper: appending one finding changes exactly the count of its own
severity by one. -/
theorem severityCount_append_singleton (findings : List GapFinding)
    (f : GapFinding) (sev : GapSeverity) :
    severityCount (findings ++ [f]) sev =
      severityCount findings sev + (if f.severity = sev then 1 else 0) := by
  unfold severityCount
  rw [List.filter_append, List.length_append]
  congr 1
  by_cases h : f.severity = sev
  · simp [List.filter_singleton, beq_iff_eq, h]
  · simp [List.filter_singleton, beq_iff_eq, h]

/-- Helper: the risk bucket of `_calculate_overall_risk` as an explicit
conditional on severity counts. -/
theorem calculateOverallRisk_fst (findings : List GapFinding) :
    (calculateOverallRisk findings).1 =
      (if severityCount findings GapSeverity.red ≥ 3 then "red"
       else if severityCount findings GapSeverity.red ≥ 1 ∨
           severityCount findings GapSeverity.yellow ≥ 5 then "yellow"
       else "green") := by
  unfold calculateOverallRisk
  rcases eq_or_ne findings [] with h | h
  · subst h
    simp [severityCount]
  · rw [if_neg h]

/-- Helper: the score of `_calculate_overall_risk` as the clamped linear
formula on severity counts. -/
theorem calculateOverallRisk_snd (findings : List GapFinding) :
    (calculateOverallRisk findings).2 =
      max 0 (min 100 (100 - 15 * (severityCount findings GapSeverity.red : ℚ)
        - 5 * (severityCount findings GapSeverity.yellow : ℚ)
        - (severityCount findings GapSeverity.green : ℚ))) := by
  unfold calculateOverallRisk
  rcases eq_or_ne findings [] with h | h
  · subst h
    simp [severityCount]
  · rw [if_neg h]
    show max 0 (min 100 (100 - (severityCount findings GapSeverity.red : ℚ) * 15
        - (severityCount findings GapSeverity.yellow : ℚ) * 5
        - (severityCount findings GapSeverity.green : ℚ) * 1)) = _
    ring_nf

/-- C5: the overall risk bucket is red iff at least 3 red findings, else
yellow iff at least 1 red or at least 5 yellow, else green; the score is
`100 − 15·red − 5·yellow − green` clamped to `[0, 100]`; the score never
increases when a finding is appended; and 5 red + 2 yellow findings give
risk red with score 15. -/
theorem C5_overall_risk_and_score (findings : List GapFinding) :
    ((calculateOverallRisk findings).1 = "red" ↔
      severityCount findings GapSeverity.red ≥ 3) ∧
    ((calculateOverallRisk findings).1 = "yellow" ↔
      (severityCount findings GapSeverity.red < 3 ∧
        (severityCount findings GapSeverity.red ≥ 1 ∨
          severityCount findings GapSeverity.yellow ≥ 5))) ∧
    ((calculateOverallRisk findings).1 = "green" ↔
      (severityCount findings GapSeverity.red = 0 ∧
        severityCount findings GapSeverity.yellow < 5)) ∧
    (calculateOverallRisk findings).2 =
      max 0 (min 100 (100 - 15 * (severityCount findings GapSeverity.red : ℚ)
        - 5 * (severityCount findings GapSeverity.yellow : ℚ)
        - (severityCount findings GapSeverity.green : ℚ))) ∧
    (∀ f : GapFinding,
      (calculateOverallRisk (findings ++ [f])).2 ≤ (calculateOverallRisk findings).2) ∧
    (calculateOverallRisk findingsFiveRedTwoYellow).1 = "red" ∧
    (calculateOverallRisk findingsFiveRedTwoYellow).2 = 15 := by
  have hr5 : severityCount findingsFiveRedTwoYellow GapSeverity.red = 5 := by decide
  have hy2 : severityCount findingsFiveRedTwoYellow GapSeverity.yellow = 2 := by decide
  have hg0 : severityCount findingsFiveRedTwoYellow GapSeverity.green = 0 := by decide
  refine ⟨?_, ?_, ?_, calculateOverallRisk_snd findings, ?_, ?_, ?_⟩
  · rw [calculateOverallRisk_fst]
    split_ifs with hA hB
    · exact iff_of_true rfl hA
    · exact iff_of_false (by decide) hA
    · exact iff_of_false (by decide) hA
  · rw [calculateOverallRisk_fst]
    split_ifs with hA hB
    · exact iff_of_false (by decide) (by rintro ⟨h1, h2⟩; omega)
    · exact iff_of_true rfl ⟨by omega, hB⟩
    · exact iff_of_false (by decide) (by rintro ⟨h1, h2⟩; exact hB h2)
  · rw [calculateOverallRisk_fst]
    split_ifs with hA hB
    · exact iff_of_false (by decide) (by rintro ⟨h1, h2⟩; omega)
    · exact iff_of_false (by decide)
        (by rintro ⟨h1, h2⟩; rcases hB with hB | hB <;> omega)
    · refine iff_of_true rfl ⟨?_, ?_⟩ <;> omega
  · intro f
    rw [calculateOverallRisk_snd, calculateOverallRisk_snd,
      severityCount_append_singleton, severityCount_append_singleton,
      severityCount_append_singleton]
    refine max_le_max le_rfl (min_le_min le_rfl ?_)
    cases f.severity <;> simp <;> linarith
  · rw [calculateOverallRisk_fst, hr5]
    norm_num
  · rw [calculateOverallRisk_snd, hr5, hy2, hg0]
    norm_num

/-- Helper: `pyInsert 0` is cons. -/
theorem pyInsert_zero {α : Type} (a : α) (l : List α) : pyInsert 0 a l = a :: l := rfl

/-- Helper: `pyInsert` is a permutation of cons. -/
theorem pyInsert_perm {α : Type} (i : ℕ) (a : α) (l : List α) :
    (pyInsert i a l).Perm (a :: l) := by
  unfold pyInsert
  calc (l.take i ++ a :: l.drop i).Perm (a :: (l.take i ++ l.drop i)) := List.perm_middle
    _ = a :: l := by rw [List.take_append_drop]

/-- Helper: `pyInsert` grows the length by exactly one. -/
theorem pyInsert_length {α : Type} (i : ℕ) (a : α) (l : List α) :
    (pyInsert i a l).length = l.length + 1 :=
  (pyInsert_perm i a l).length_eq

/-- Helper: the recommendation-dedup fold keeps the accumulator
duplicate-free. -/
theorem dedupFold_nodup (l : List GapFinding) (acc : List String) (h : acc.Nodup) :
    (l.foldl (fun acc f => if acc.contains f.recommendation then acc
      else acc ++ [f.recommendation]) acc).Nodup := by
  induction l generalizing acc with
  | nil => simpa using h
  | cons x xs ih =>
      rw [List.foldl_cons]
      by_cases hc : acc.contains x.recommendation
      · rw [if_pos hc]; exact ih acc h
      · rw [if_neg hc]
        refine ih _ ?_
        have hx : x.recommendation ∉ acc := by simpa using hc
        exact ((List.perm_append_singleton _ _).nodup_iff).mpr
          (List.nodup_cons.mpr ⟨hx, h⟩)

/-- Helper: the recommendation-dedup fold adds at most one entry per
finding. -/
theorem dedupFold_length (l : List GapFinding) (acc : List String) :
    (l.foldl (fun acc f => if acc.contains f.recommendation then acc
      else acc ++ [f.recommendation]) acc).length ≤ acc.length + l.length := by
  induction l generalizing acc with
  | nil => simp
  | cons x xs ih =>
      rw [List.foldl_cons]
      by_cases hc : acc.contains x.recommendation
      · rw [if_pos hc]
        refine le_trans (ih acc) ?_
        rw [List.length_cons]
        omega
      · rw [if_neg hc]
        refine le_trans (ih _) ?_
        rw [List.length_append, List.length_cons]
        simp
        omega

/-- Helper: every entry of the recommendation-dedup fold comes from the
accumulator or from a processed finding. -/
theorem dedupFold_mem (l : List GapFinding) (acc : List String) (x : String)
    (hx : x ∈ l.foldl (fun acc f => if acc.contains f.recommendation then acc
      else acc ++ [f.recommendation]) acc) :
    x ∈ acc ∨ ∃ f, f ∈ l ∧ f.recommendation = x := by
  induction l generalizing acc with
  | nil => exact Or.inl (by simpa using hx)
  | cons y ys ih =>
      rw [List.foldl_cons] at hx
      by_cases hc : acc.contains y.recommendation
      · rw [if_pos hc] at hx
        rcases ih acc hx with h | ⟨f, hf, hfe⟩
        · exact Or.inl h
        · exact Or.inr ⟨f, List.mem_cons_of_mem _ hf, hfe⟩
      · rw [if_neg hc] at hx
        rcases ih _ hx with h | ⟨f, hf, hfe⟩
        · rcases List.mem_append.mp h with h | h
          · exact Or.inl h
          · exact Or.inr ⟨y, List.mem_cons_self _ _, (List.mem_singleton.mp h).symm⟩
        · exact Or.inr ⟨f, List.mem_cons_of_mem _ hf, hfe⟩

/-- C8: the top-recommendation list holds at most 7 entries (at most five
deduplicated finding recommendations plus the two optional summary lines),
and it is duplicate-free whenever no finding recommendation collides with
one of the two fixed summary strings. -/
theorem C8_top_recommendations (findings : List GapFinding) :
    (generateTopRecommendations findings).length ≤ 7 ∧
    ((∀ f ∈ findings,
        f.recommendation ≠ "CRITICAL: Address red-level gaps before submission" ∧
        f.recommendation ≠ "HIGH PRIORITY: Significant strengthening needed in multiple areas") →
      (generateTopRecommendations findings).Nodup) := by
  set sorted := List.insertionSort findingLE findings with hsdef
  set base := (sorted.take 5).foldl (fun acc f =>
    if acc.contains f.recommendation then acc
    else acc ++ [f.recommendation]) ([] : List String) with hbdef
  have hgen : generateTopRecommendations findings =
      (if ((findings.filter (fun f => f.severity == GapSeverity.yellow)).length > 3) then
        pyInsert 1 "HIGH PRIORITY: Significant strengthening needed in multiple areas"
          (if ((findings.filter (fun f => f.severity == GapSeverity.red)) ≠ []) then
            pyInsert 0 "CRITICAL: Address red-level gaps before submission" base
          else base)
      else
        (if ((findings.filter (fun f => f.severity == GapSeverity.red)) ≠ []) then
          pyInsert 0 "CRITICAL: Address red-level gaps before submission" base
        else base)).take 8 := rfl
  have hbase_nodup : base.Nodup := dedupFold_nodup _ _ List.nodup_nil
  have hbase_len : base.length ≤ 5 := by
    have h1 := dedupFold_length (sorted.take 5) []
    rw [← hbdef] at h1
    have h2 : (sorted.take 5).length ≤ 5 := by
      rw [List.length_take]; omega
    simp only [List.length_nil] at h1
    omega
  have hbase_mem : ∀ x ∈ base, ∃ f, f ∈ findings ∧ f.recommendation = x := by
    intro x hx
    rcases dedupFold_mem (sorted.take 5) [] x hx with h | ⟨f, hf, hfe⟩
    · simp at h
    · refine ⟨f, ?_, hfe⟩
      exact (List.perm_insertionSort findingLE findings).mem_iff.mp
        (List.mem_of_mem_take hf)
  constructor
  · rw [hgen]
    rw [List.length_take]
    split_ifs with h1 h2 h3
    · rw [pyInsert_length, pyInsert_length]; omega
    · rw [pyInsert_length]; omega
    · rw [pyInsert_length]; omega
    · omega
  · intro h
    have hcrit : "CRITICAL: Address red-level gaps before submission" ∉ base := by
      intro hm
      rcases hbase_mem _ hm with ⟨f, hf, hfe⟩
      exact (h f hf).1 hfe
    have hhigh : "HIGH PRIORITY: Significant strengthening needed in multiple areas" ∉ base := by
      intro hm
      rcases hbase_mem _ hm with ⟨f, hf, hfe⟩
      exact (h f hf).2 hfe
    rw [hgen]
    have hfinal : ∀ l : List String, l.Nodup → (l.take 8).Nodup :=
      fun l hl => hl.sublist (List.take_sublist 8 l)
    split_ifs with h1 h2 h3
    · refine hfinal _ (((pyInsert_perm 1 _ _).nodup_iff).mpr ?_)
      rw [pyInsert_zero]
      refine List.nodup_cons.mpr ⟨?_, List.nodup_cons.mpr ⟨hcrit, hbase_nodup⟩⟩
      simp only [List.mem_cons]
      rintro (hx | hx)
      · exact absurd hx (by decide)
      · exact hhigh hx
    · exact hfinal _ (((pyInsert_perm 1 _ _).nodup_iff).mpr
        (List.nodup_cons.mpr ⟨hhigh, hbase_nodup⟩))
    · exact hfinal _ (by rw [pyInsert_zero]; exact List.nodup_cons.mpr ⟨hcrit, hbase_nodup⟩)
    · exact hfinal _ hbase_nodup

/-- C8 witness. -/
theorem C8_witness :
    (generateTopRecommendations findingsOneRedFourYellow).length ≤ 7 ∧
      (generateTopRecommendations findingsOneRedFourYellow).Nodup :=
  ⟨(C8_top_recommendations findingsOneRedFourYellow).1,
   (C8_top_recommendations findingsOneRedFourYellow).2 (by decide)⟩

/-- C8 counterexample: one red and four yellow findings with five distinct
recommendations produce a 7-entry top-recommendation list — more than 5. -/
theorem C8_counterexample :
    (generateTopRecommendations findingsOneRedFourYellow).length = 7 := by
  decide

/-- Helper: the `"none"` string test on a level value is the `none`
constructor test. -/
theorem value_eq_none_iff (l : AlignmentLevel) :
    ((l.value == "none") = true) ↔ l = AlignmentLevel.none := by
  cases l <;> simp [AlignmentLevel.value]

/-- Helper: mapping a constant over `enum` is mapping it over the list. -/
theorem enum_map_const {α β : Type} (l : List α) (c : β) :
    l.enum.map (fun _ => c) = l.map (fun _ => c) := by
  rw [List.map_const', List.map_const', List.enum_length]

/-- C10: every result the crosswalk engine emits has `gap_flag` exactly
when its level is `none`; for any result list with that invariant the
alignment-gap and match-gap lists of `_categorize_gaps` select the same
sections; and `_build_findings` turns the alignment gaps into the leading
red `"alignment"` findings followed by the match gaps as yellow `"match"`
findings. -/
theorem C10_gap_flag_iff_none :
    (∀ (bd : BoilerplateData) (useMl : Bool) (simFn : String → String → ℚ)
        (sec : RFPSection) (bs : Option (List BoilerplateSection)),
      ∀ r ∈ matchSection bd useMl simFn sec bs,
        (r.gap_flag = true ↔ r.alignment_level = AlignmentLevel.none)) ∧
    (∀ results : List CrosswalkResult,
      (∀ r ∈ results, (r.gap_flag = true ↔ r.alignment_level = AlignmentLevel.none)) →
      (categorizeGaps results).1.map (fun i => i.sectionName) =
        (categorizeGaps results).2.map (fun i => i.sectionName)) ∧
    (∀ (ga : List AlignmentGapItem) (gm : List MatchGapItem)
        (ms ps ew wa od : List String),
      ((buildFindings ga gm ms ps ew wa od).map (fun f => (f.category, f.severity))).take
          (ga.length + gm.length) =
        ga.map (fun _ => ("alignment", GapSeverity.red)) ++
          gm.map (fun _ => ("match", GapSeverity.yellow))) := by
  refine ⟨?_, ?_, ?_⟩
  · intro bd useMl simFn sec bs r hr
    unfold matchSection at hr
    rw [List.mem_filterMap] at hr
    obtain ⟨a, _, hsome⟩ := hr
    cases hg : getBoilerplateForArea bd a.1 bs with
    | none => simp [hg] at hsome
    | some b =>
        simp only [hg] at hsome
        rw [Option.some.injEq] at hsome
        subst hsome
        simp [beq_iff_eq]
  · intro results hinv
    induction results with
    | nil => rfl
    | cons r rs ih =>
        have hr := hinv r (List.mem_cons_self _ _)
        have hrs := ih (fun x hx => hinv x (List.mem_cons_of_mem _ hx))
        simp only [categorizeGaps] at hrs ⊢
        rw [List.filterMap_cons, List.filterMap_cons]
        by_cases hb : r.gap_flag = true
        · have hn : r.alignment_level = AlignmentLevel.none := hr.mp hb
          have hv : (r.alignment_level.value == "none") = true :=
            (value_eq_none_iff _).mpr hn
          rw [if_pos hb, if_pos hv]
          simpa using hrs
        · have hn : ¬ r.alignment_level = AlignmentLevel.none :=
            fun hc => hb (hr.mpr hc)
          have hv : ¬ ((r.alignment_level.value == "none") = true) :=
            fun hc => hn ((value_eq_none_iff _).mp hc)
          rw [if_neg hb, if_neg hv]
          exact hrs
  · intro ga gm ms ps ew wa od
    simp only [buildFindings]
    rw [List.append_assoc, List.append_assoc, List.append_assoc,
      List.append_assoc, List.append_assoc]
    rw [List.map_append, List.map_map, List.map_append, List.map_map]
    have h1 : (ga.enum.map
        ((fun f : GapFinding => (f.category, f.severity)) ∘ (fun e =>
          { category := "alignment", description := e.2.gap,
            severity := GapSeverity.red,
            recommendation := "Develop custom content for this section or reconsider FOAM program fit",
            priority := 1 + e.1, affected_section := some e.2.sectionName : GapFinding }))) =
        ga.map (fun _ => ("alignment", GapSeverity.red)) := by
      show ga.enum.map (fun _ => ("alignment", GapSeverity.red)) = _
      exact enum_map_const _ _
    have h2 : (gm.enum.map
        ((fun f : GapFinding => (f.category, f.severity)) ∘ (fun e =>
          { category := "match", description := e.2.gap,
            severity := GapSeverity.yellow,
            recommendation := "Explore connections to " ++ e.2.foamArea ++
              " or identify new capability areas",
            priority := 1 + ga.length + e.1,
            affected_section := some e.2.sectionName : GapFinding }))) =
        gm.map (fun _ => ("match", GapSeverity.yellow)) := by
      show gm.enum.map (fun _ => ("match", GapSeverity.yellow)) = _
      exact enum_map_const _ _
    rw [h1, h2]
    rw [show ga.length = (ga.map (fun _ => ("alignment", GapSeverity.red))).length from
      (List.length_map _ _).symm]
    rw [List.take_append]
    congr 1
    apply List.take_left'
    rw [List.length_map]

/-- C10 witness. -/
theorem C10_witness :
    (categorizeGaps resultsC10).1.map (fun i => i.sectionName) =
      (categorizeGaps resultsC10).2.map (fun i => i.sectionName) :=
  C10_gap_flag_iff_none.2.1 resultsC10 (by decide)

end Grant
